import Mathlib

/-!
Shallow embedding of the agent_template repository (src/tools.py, src/utils.py,
src/main.py): a single-turn LangGraph agent with two nodes (agent, tools),
a duck-typed tool registry, a prompt loader, and a catch-all request handler.

External collaborators (the hosted model and the filesystem) are parameters:
the model client is a function `complete : String → Except String ModelResponse`
and the filesystem is `fs : String → Option String` (path to file contents).
Python exceptions are modelled with `Except String`.
-/

namespace AgentTemplate

/-- Tool arguments: a Python dict of string keys (values modelled as strings). -/
abbrev Args := List (String × String)

/-- A Tool Invocation Request as found in `response.tool_calls`:
a dict with a name and args (src/main.py lines 55-56). -/
structure ToolCall where
  name : String
  args : Args
  deriving DecidableEq, Repr

/-- The model response object: optional text plus an ordered list of tool
calls (the `tool_calls` attribute read by `tool_node` and `route_agent`). -/
structure ModelResponse where
  text : Option String
  tool_calls : List ToolCall
  deriving DecidableEq, Repr

/-- A value held in the state's `response` field: either the raw model
response object or a plain string (the joined tool results). -/
inductive RespVal where
  | model (r : ModelResponse)
  | str (s : String)
  deriving DecidableEq, Repr

/-- The LangGraph state (src/main.py lines 36-39): `input: str`,
`response: Optional[Any]`. -/
structure State where
  input : String
  response : Option RespVal
  deriving DecidableEq, Repr

/-- A langchain tool object: has a `name` attribute and an `invoke`
capability. `invoke` may raise (e.g. on missing arguments), modelled
as `Except String`. -/
structure Tool where
  name : String
  invoke : Args → Except String String

/- ---------------- src/tools.py ---------------- -/

/-- Body of `get_weather` (src/tools.py lines 17-20). -/
def get_weather_body (location : String) : String :=
  "Sunny, 72°F in " ++ location

/-- The `get_weather` tool object produced by the `@tool` decorator:
invoking it with a dict looks up the `location` argument. -/
def get_weather : Tool where
  name := "get_weather"
  invoke := fun args =>
    match args.lookup "location" with
    | some loc => .ok (get_weather_body loc)
    | none => .error "ValidationError: missing argument location"

/-- Body of `search_web` (src/tools.py lines 22-25). -/
def search_web_body (query : String) : String :=
  "Results for: " ++ query

/-- The `search_web` tool object produced by the `@tool` decorator. -/
def search_web : Tool where
  name := "search_web"
  invoke := fun args =>
    match args.lookup "query" with
    | some q => .ok (search_web_body q)
    | none => .error "ValidationError: missing argument query"

/-- A module member as seen by `inspect.getmembers`: it may or may not
expose a `name` attribute and an `invoke` capability. -/
structure Member where
  name : Option String
  invoke : Option (Args → Except String String)

/-- The duck-typed capability filter of `get_tools` (src/tools.py
lines 31-34): a member is a tool iff it has both `name` and `invoke`. -/
def member_tool (m : Member) : Option Tool :=
  match m.name, m.invoke with
  | some n, some f => some ⟨n, f⟩
  | _, _ => none

/-- The `get_tools` scan generalised over the member list: walk the members
in order and collect every one exposing both capabilities (no dedup). -/
def collect_tools (members : List Member) : List Tool :=
  members.filterMap member_tool

/-- View a tool object as a module member (it exposes both attributes). -/
def tool_member (t : Tool) : Member :=
  ⟨some t.name, some t.invoke⟩

/-- The members of the tools module in `inspect.getmembers` order
(sorted by attribute name): dunder attributes, the `get_tools` function
itself (a plain function without `name`/`invoke` attributes),
`get_weather`, the `inspect` module, `search_web`, the `sys` module, the
imported `tool` decorator. Only `get_weather` and `search_web` pass the
capability filter. -/
def tools_module_members : List Member :=
  [⟨none, none⟩,                -- dunder attributes of the module
   ⟨none, none⟩,                -- get_tools (function: no name/invoke attrs)
   tool_member get_weather,     -- get_weather
   ⟨none, none⟩,                -- inspect
   tool_member search_web,      -- search_web
   ⟨none, none⟩,                -- sys
   ⟨none, none⟩]                -- tool

/-- Registry discovery, `get_tools()` (src/tools.py lines 27-35). -/
def get_tools : List Tool :=
  collect_tools tools_module_members

/-- The process-wide tool list bound at module load (src/main.py line 42). -/
def tools : List Tool := get_tools

/-- Predicate used to count members that the registry would list under a
given tool name: the member has that `name` and an `invoke` capability. -/
def member_has (n : String) (m : Member) : Bool :=
  match m.name, m.invoke with
  | some n2, some _ => n2 == n
  | _, _ => false

/- ---------------- src/utils.py ---------------- -/

/-- Model of the Python builtin `str.strip()`: drop whitespace characters
from both ends of the string. -/
def py_strip (s : String) : String :=
  ⟨((s.data.dropWhile Char.isWhitespace).reverse.dropWhile Char.isWhitespace).reverse⟩

/-- The prompt loader, `build_prompt` (src/utils.py lines 3-5): read
`prompts/{name}.txt`, strip surrounding whitespace; raises
FileNotFoundError when the file is missing. -/
def build_prompt (fs : String → Option String) (name : String) :
    Except String String :=
  let path := "prompts/" ++ name ++ ".txt"
  match fs path with
  | some contents => .ok (py_strip contents)
  | none => .error ("FileNotFoundError: " ++ path)

/- ---------------- src/main.py ---------------- -/

/-- Tool-name resolution, `execute_tool` (src/main.py lines 45-62): scan
`tools` in order, invoke the first whose name matches; otherwise return
the sentinel string "Tool not found". -/
def execute_tool (ts : List Tool) (tool_call : ToolCall) :
    Except String String :=
  match ts.find? (fun t => t.name == tool_call.name) with
  | some t => t.invoke tool_call.args
  | none => .ok "Tool not found"

/-- The `tool_calls` read in `tool_node` and `route_agent`: `[]` when the
response is None or has no `tool_calls` attribute (a plain string). -/
def response_tool_calls : Option RespVal → List ToolCall
  | some (.model r) => r.tool_calls
  | _ => []

/-- The result-collection loop of `tool_node` (src/main.py lines 92-95):
for each call in order, execute it and append one line
"Tool {name} result: {result}"; an exception aborts the loop. -/
def run_calls (ts : List Tool) : List ToolCall → Except String (List String)
  | [] => .ok []
  | tc :: rest => do
    let result ← execute_tool ts tc
    let lines ← run_calls ts rest
    .ok (("Tool " ++ tc.name ++ " result: " ++ result) :: lines)

/-- The tool-execution node, `tool_node` (src/main.py lines 78-99). -/
def tool_node (ts : List Tool) (state : State) : Except String State := do
  let tool_calls := response_tool_calls state.response
  let results ← run_calls ts tool_calls
  let response_text :=
    if results.isEmpty then "No tools executed"
    else String.intercalate "\n" results
  .ok { input := state.input, response := some (.str response_text) }

/-- The model-call node, `agent_node` (src/main.py lines 64-76): build the
prompt, call the model, store the raw response object. -/
def agent_node (fs : String → Option String)
    (complete : String → Except String ModelResponse) (state : State) :
    Except String State := do
  let prompt ← build_prompt fs "system_prompt"
  let response ← complete (prompt ++ "\n\n" ++ state.input)
  .ok { input := state.input, response := some (.model response) }

/-- The END sentinel of LangGraph. -/
def END : String := "__end__"

/-- The routing predicate, `route_agent` (src/main.py lines 107-120):
"tools" iff the response is present, has a `tool_calls` attribute and it
is non-empty. -/
def route_agent (state : State) : String :=
  if (response_tool_calls state.response).isEmpty then END else "tools"

/-- The node table of the workflow (src/main.py lines 103-104). -/
def node_fn (fs : String → Option String)
    (complete : String → Except String ModelResponse) :
    String → State → Except String State
  | "agent" => agent_node fs complete
  | "tools" => tool_node tools
  | _ => fun _ => .error "unknown node"

/-- The edge function of the workflow: the conditional edge out of
`agent` (src/main.py line 122) and the fixed edge from `tools` to END
(line 123); no other node has an outgoing edge. -/
def workflow_next : String → State → Option String
  | "agent", state => some (route_agent state)
  | "tools", _ => some END
  | _, _ => none

/-- The compiled graph executor: starting at a node, repeatedly run the
node and follow its edge until END, recording the nodes visited. Fuel
models LangGraph's recursion limit. -/
def run_graph (fs : String → Option String)
    (complete : String → Except String ModelResponse) :
    Nat → String → State → Except String (List String × State)
  | 0, _, _ => .error "GraphRecursionError"
  | fuel + 1, node, state =>
    if node = END then .ok ([], state)
    else do
      let state1 ← node_fn fs complete node state
      match workflow_next node state1 with
      | some next => do
        let (visited, final) ← run_graph fs complete fuel next state1
        .ok (node :: visited, final)
      | none => .error "dead end"

/-- One orchestrator run, `graph.invoke` (src/main.py lines 124 and 143):
run the compiled graph from the entry point `agent` (LangGraph's default
recursion limit is 25). -/
def graph_invoke (fs : String → Option String)
    (complete : String → Except String ModelResponse) (state : State) :
    Except String State := do
  let (_, final) ← run_graph fs complete 25 "agent" state
  .ok final

/-- The body of a `/query` response: `response` on success, `error` on
any failure. -/
inductive QueryOut where
  | response (v : Option RespVal)
  | error (msg : String)
  deriving DecidableEq, Repr

/-- The `/query` handler (src/main.py lines 131-146): look up the `text`
key of the body, invoke the graph on a fresh state, return the final
`response` verbatim; any exception is caught and reported as
"An error occurred: " followed by the message. -/
def query (fs : String → Option String)
    (complete : String → Except String ModelResponse)
    (user_input : List (String × String)) : QueryOut :=
  match user_input.lookup "text" with
  | none => .error ("An error occurred: " ++ "KeyError: text")
  | some text =>
    match graph_invoke fs complete { input := text, response := none } with
    | .ok result => .response result.response
    | .error e => .error ("An error occurred: " ++ e)

/- ---------------- sample environments used by witnesses ---------------- -/

/-- Sample filesystem: only `prompts/system_prompt.txt` exists, holding
whitespace-padded text. -/
def w_fs : String → Option String := fun path =>
  if path = "prompts/system_prompt.txt" then some " You are helpful. " else none

/-- Sample model client that answers with plain text and no tool calls. -/
def w_complete_plain : String → Except String ModelResponse :=
  fun _ => .ok { text := some "Hello!", tool_calls := [] }

/-- Sample model response carrying one `search_web` tool call. -/
def w_r1 : ModelResponse := ⟨none, [⟨"search_web", [("query", "cats")]⟩]⟩

/-- The state `tool_node` produces from `w_r1`. -/
def w_s1 : State := ⟨"q", some (.str "Tool search_web result: Results for: cats")⟩

/- ---------------- helper lemmas ---------------- -/

/-- Computation rule for `Except.bind` on a success value. -/
lemma exbind_ok {α β : Type} (a : α) (f : α → Except String β) :
    Except.bind (.ok a) f = f a := rfl

/-- Computation rule for `Except.bind` on an error value. -/
lemma exbind_error {α β : Type} (e : String) (f : α → Except String β) :
    Except.bind (.error e) f = .error e := rfl

/-- Computation rule for monadic bind on a success value. -/
lemma bindm_ok {α β : Type} (a : α) (f : α → Except String β) :
    (Except.ok a >>= f) = f a := rfl

/-- Computation rule for monadic bind on an error value. -/
lemma bindm_error {α β : Type} (e : String) (f : α → Except String β) :
    (Except.error e >>= f) = Except.error e := rfl

/-- Running the graph at END consumes no steps and returns the state. -/
lemma run_graph_24_end (fs : String → Option String)
    (c : String → Except String ModelResponse) (s : State) :
    run_graph fs c 24 END s = .ok ([], s) := rfl

/-- Running the graph at `tools` executes the tool node once and stops. -/
lemma run_graph_24_tools (fs : String → Option String)
    (c : String → Except String ModelResponse) (s : State) :
    run_graph fs c 24 "tools" s =
      Except.bind (tool_node tools s) (fun s2 => .ok (["tools"], s2)) := rfl

/-- Running the graph at `agent` executes the agent node, then continues
at whatever node the routing predicate picks. -/
lemma run_graph_25_agent (fs : String → Option String)
    (c : String → Except String ModelResponse) (s : State) :
    run_graph fs c 25 "agent" s =
      Except.bind (agent_node fs c s) (fun s1 =>
        Except.bind (run_graph fs c 24 (route_agent s1) s1)
          (fun p => .ok ("agent" :: p.1, p.2))) := rfl

/-- The routing predicate returns END when there are no tool calls. -/
lemma route_agent_of_empty {s : State}
    (h : (response_tool_calls s.response).isEmpty = true) :
    route_agent s = END := by
  simp [route_agent, h]

/-- The routing predicate returns `tools` when there are tool calls. -/
lemma route_agent_of_nonempty {s : State}
    (h : (response_tool_calls s.response).isEmpty = false) :
    route_agent s = "tools" := by
  simp [route_agent, h]

/-- One orchestrator run is the agent node followed by the tool node
exactly when the routing predicate says `tools`. -/
lemma graph_invoke_eq (fs : String → Option String)
    (c : String → Except String ModelResponse) (s : State) :
    graph_invoke fs c s =
      Except.bind (agent_node fs c s) (fun s1 =>
        if route_agent s1 = "tools" then tool_node tools s1 else .ok s1) := by
  unfold graph_invoke
  rw [run_graph_25_agent]
  rcases h1 : agent_node fs c s with e | s1
  · rfl
  · rw [exbind_ok, exbind_ok]
    rcases he : (response_tool_calls s1.response).isEmpty with _ | _
    · rw [route_agent_of_nonempty he, run_graph_24_tools, if_pos rfl]
      rcases h2 : tool_node tools s1 with e | s2
      · rfl
      · rfl
    · rw [route_agent_of_empty he, run_graph_24_end, if_neg (by decide : ¬(END = "tools"))]
      rfl

/-- A successful agent node keeps the input and stores a raw model
response object. -/
lemma agent_node_ok_shape {fs : String → Option String}
    {c : String → Except String ModelResponse} {s s1 : State}
    (h : agent_node fs c s = .ok s1) :
    ∃ r : ModelResponse, s1 = { input := s.input, response := some (.model r) } := by
  unfold agent_node at h
  rcases hb : build_prompt fs "system_prompt" with e | p
  · rw [hb, bindm_error] at h
    exact Except.noConfusion h
  · rw [hb] at h
    simp only [bindm_ok] at h
    rcases hc : c (p ++ "\n\n" ++ s.input) with e | r
    · rw [hc, bindm_error] at h
      exact Except.noConfusion h
    · rw [hc] at h
      simp only [bindm_ok] at h
      exact ⟨r, ((Except.ok.injEq _ _).mp h).symm⟩

/-- A successful tool node keeps the input and stores a plain string. -/
lemma tool_node_ok_shape {ts : List Tool} {s s2 : State}
    (h : tool_node ts s = .ok s2) :
    ∃ t : String, s2 = { input := s.input, response := some (.str t) } := by
  simp only [tool_node] at h
  rcases hr : run_calls ts (response_tool_calls s.response) with e | lines
  · rw [hr, bindm_error] at h
    exact Except.noConfusion h
  · rw [hr] at h
    simp only [bindm_ok] at h
    exact ⟨_, ((Except.ok.injEq _ _).mp h).symm⟩

/-- A successful result-collection loop yields one line per tool call, in
order, each produced by resolving that call. -/
lemma run_calls_ok_spec (ts : List Tool) :
    ∀ (tcs : List ToolCall) (lines : List String), run_calls ts tcs = .ok lines →
      lines.length = tcs.length ∧
      ∀ i, i < tcs.length →
        ∃ res, execute_tool ts (tcs.getD i ⟨"", []⟩) = .ok res ∧
          lines.getD i "" =
            "Tool " ++ (tcs.getD i ⟨"", []⟩).name ++ " result: " ++ res := by
  intro tcs
  induction tcs with
  | nil =>
    intro lines h
    simp only [run_calls] at h
    obtain rfl : ([] : List String) = lines := (Except.ok.injEq _ _).mp h
    exact ⟨rfl, fun i hi => absurd hi (by simp)⟩
  | cons tc rest ih =>
    intro lines h
    simp only [run_calls] at h
    rcases he : execute_tool ts tc with e | res
    · rw [he, bindm_error] at h
      exact Except.noConfusion h
    · rw [he] at h
      simp only [bindm_ok] at h
      rcases hr : run_calls ts rest with e | ls
      · rw [hr, bindm_error] at h
        exact Except.noConfusion h
      · rw [hr] at h
        simp only [bindm_ok] at h
        obtain rfl : _ :: ls = lines := (Except.ok.injEq _ _).mp h
        obtain ⟨hlen, hidx⟩ := ih ls hr
        refine ⟨by simp [hlen], fun i hi => ?_⟩
        cases i with
        | zero => exact ⟨res, by simpa using he, by simp⟩
        | succ j =>
          have hj : j < rest.length := by
            simpa [Nat.succ_lt_succ_iff] using hi
          obtain ⟨r2, h1, h2⟩ := hidx j hj
          exact ⟨r2, by simpa using h1, by simpa using h2⟩

/-- Every successful run from the entry point visits either just the
agent node, or the agent node followed once by the tool node. -/
lemma run_graph_25_cases (fs : String → Option String)
    (c : String → Except String ModelResponse) (s : State)
    (visited : List String) (final : State)
    (h : run_graph fs c 25 "agent" s = .ok (visited, final)) :
    (∃ s1, agent_node fs c s = .ok s1 ∧ route_agent s1 = END ∧
      visited = ["agent"] ∧ final = s1) ∨
    (∃ s1 s2, agent_node fs c s = .ok s1 ∧ route_agent s1 = "tools" ∧
      tool_node tools s1 = .ok s2 ∧ visited = ["agent", "tools"] ∧ final = s2) := by
  rw [run_graph_25_agent] at h
  rcases h1 : agent_node fs c s with e | s1
  · rw [h1, exbind_error] at h
    exact Except.noConfusion h
  · rw [h1, exbind_ok] at h
    rcases he : (response_tool_calls s1.response).isEmpty with _ | _
    · rw [route_agent_of_nonempty he, run_graph_24_tools] at h
      rcases h2 : tool_node tools s1 with e | s2
      · rw [h2, exbind_error, exbind_error] at h
        exact Except.noConfusion h
      · rw [h2, exbind_ok, exbind_ok] at h
        obtain hp : (["agent", "tools"], s2) = (visited, final) :=
          (Except.ok.injEq _ _).mp h
        refine Or.inr ⟨s1, s2, rfl, route_agent_of_nonempty he, h2, ?_, ?_⟩
        · exact (Prod.mk.injEq _ _ _ _ ▸ hp).1.symm
        · exact (Prod.mk.injEq _ _ _ _ ▸ hp).2.symm
    · rw [route_agent_of_empty he, run_graph_24_end, exbind_ok] at h
      obtain hp : ((["agent"] : List String), s1) = (visited, final) :=
        (Except.ok.injEq _ _).mp h
      refine Or.inl ⟨s1, rfl, route_agent_of_empty he, ?_, ?_⟩
      · exact (Prod.mk.injEq _ _ _ _ ▸ hp).1.symm
      · exact (Prod.mk.injEq _ _ _ _ ▸ hp).2.symm

/-- Discovery lists one descriptor per member that has both capabilities
and a given name, duplicates included. -/
lemma collect_tools_count (n : String) :
    ∀ ms : List Member,
      ((collect_tools ms).filter (fun t => t.name == n)).length =
        ms.countP (member_has n) := by
  intro ms
  induction ms with
  | nil => rfl
  | cons m ms ih =>
    rcases m with ⟨nm, iv⟩
    rcases nm with _ | n2 <;> rcases iv with _ | f <;>
      simp only [collect_tools, member_tool, List.filterMap_cons, List.countP_cons,
        List.filter_cons, member_has, cond_false, cond_true] at ih ⊢ <;>
      first
        | (rw [ih]; simp [member_has])
        | skip
    by_cases hn : (n2 == n) = true <;> simp [hn, ih, collect_tools]

/- ---------------- claims ---------------- -/

/-- C1: for every model response entering the tool-execution state, the
tool node resolves and invokes each tool call in the original order of
`response.tool_calls`, collects one line "Tool {name} result: {result}"
per call, joins the lines with newlines into the final response string,
and substitutes the literal "No tools executed" when the collected list
is empty. -/
theorem C1_tool_node_collects_in_order
    (ts : List Tool) (input : String) (r : ModelResponse) (s2 : State)
    (h : tool_node ts { input := input, response := some (.model r) } = .ok s2) :
    ∃ lines : List String,
      lines.length = r.tool_calls.length ∧
      (∀ i, i < r.tool_calls.length →
        ∃ res, execute_tool ts (r.tool_calls.getD i ⟨"", []⟩) = .ok res ∧
          lines.getD i "" =
            "Tool " ++ (r.tool_calls.getD i ⟨"", []⟩).name ++ " result: " ++ res) ∧
      s2 = { input := input,
             response := some (.str (if lines.isEmpty then "No tools executed"
                                     else String.intercalate "\n" lines)) } ∧
      (r.tool_calls = [] → s2.response = some (.str "No tools executed")) := by
  simp only [tool_node, response_tool_calls] at h
  rcases hr : run_calls ts r.tool_calls with e | lines
  · rw [hr, bindm_error] at h
    exact Except.noConfusion h
  · rw [hr] at h
    simp only [bindm_ok] at h
    obtain ⟨hlen, hidx⟩ := run_calls_ok_spec ts r.tool_calls lines hr
    injection h with h2
    subst h2
    refine ⟨lines, hlen, hidx, rfl, fun hnil => ?_⟩
    have hl : lines = [] := List.eq_nil_of_length_eq_zero (by rw [hlen, hnil]; rfl)
    subst hl
    rfl

/-- Witness for C1: a response with one `search_web` call produces the
single line "Tool search_web result: Results for: cats". -/
theorem C1_tool_node_collects_in_order_w :
    ∃ lines : List String,
      lines.length = w_r1.tool_calls.length ∧
      (∀ i, i < w_r1.tool_calls.length →
        ∃ res, execute_tool tools (w_r1.tool_calls.getD i ⟨"", []⟩) = .ok res ∧
          lines.getD i "" =
            "Tool " ++ (w_r1.tool_calls.getD i ⟨"", []⟩).name ++ " result: " ++ res) ∧
      w_s1 = { input := "q",
               response := some (.str (if lines.isEmpty then "No tools executed"
                                       else String.intercalate "\n" lines)) } ∧
      (w_r1.tool_calls = [] → w_s1.response = some (.str "No tools executed")) :=
  C1_tool_node_collects_in_order tools "q" w_r1 w_s1 rfl

/-- C2: the routing predicate picks the tool-execution state exactly when
`response.tool_calls` is non-empty; in the no-tool-call path the
orchestrator terminates with the raw model response object stored
unchanged, not reduced to plain text. -/
theorem C2_routing_and_raw_passthrough
    (fs : String → Option String) (complete : String → Except String ModelResponse)
    (input input2 p : String) (r rt : ModelResponse)
    (hb : build_prompt fs "system_prompt" = .ok p)
    (hc : complete (p ++ "\n\n" ++ input) = .ok r)
    (hempty : r.tool_calls = []) :
    (route_agent { input := input2, response := some (.model rt) } = "tools" ↔
      rt.tool_calls ≠ []) ∧
    graph_invoke fs complete { input := input, response := none } =
      .ok { input := input, response := some (.model r) } := by
  constructor
  · rcases hl : rt.tool_calls with _ | ⟨tc, rest⟩ <;>
      simp [route_agent, response_tool_calls, hl, END]
  · rw [graph_invoke_eq]
    have ha : agent_node fs complete { input := input, response := none } =
        .ok { input := input, response := some (.model r) } := by
      unfold agent_node
      rw [hb]
      simp only [bindm_ok]
      rw [hc]
      rfl
    rw [ha, exbind_ok, if_neg]
    rw [route_agent_of_empty (by simp [response_tool_calls, hempty])]
    decide

/-- Witness for C2: with a model answering "Hello!" and no tool calls,
the run terminates and returns the raw model response object. -/
theorem C2_routing_and_raw_passthrough_w :
    (route_agent (State.mk "x"
        (some (.model ⟨none, [⟨"get_weather", []⟩]⟩))) = "tools" ↔
      (ModelResponse.mk none [ToolCall.mk "get_weather" []]).tool_calls ≠ []) ∧
    graph_invoke w_fs w_complete_plain { input := "hi", response := none } =
      .ok { input := "hi", response := some (.model ⟨some "Hello!", []⟩) } :=
  C2_routing_and_raw_passthrough w_fs w_complete_plain "hi" "x" "You are helpful."
    ⟨some "Hello!", []⟩ ⟨none, [⟨"get_weather", []⟩]⟩ rfl rfl rfl

/-- C3: tool-name resolution scans the registry list in order and invokes
the first tool whose name matches; a name matching no registered tool
yields the sentinel "Tool not found", so the collected line is
"Tool {name} result: Tool not found" and no error is raised. -/
theorem C3_resolution_first_match_and_not_found
    (t : Tool) (ts ts2 : List Tool) (tc tc2 : ToolCall)
    (hno : ∀ t2 ∈ ts2, t2.name ≠ tc2.name) :
    execute_tool (t :: ts) tc =
      (if t.name = tc.name then t.invoke tc.args else execute_tool ts tc) ∧
    execute_tool ts2 tc2 = .ok "Tool not found" ∧
    run_calls ts2 [tc2] = .ok ["Tool " ++ tc2.name ++ " result: Tool not found"] := by
  have hfind : ts2.find? (fun t3 => t3.name == tc2.name) = none := by
    rw [List.find?_eq_none]
    intro t3 ht3
    simpa using hno t3 ht3
  have hex : execute_tool ts2 tc2 = .ok "Tool not found" := by
    simp [execute_tool, hfind]
  refine ⟨?_, hex, ?_⟩
  · by_cases hn : t.name = tc.name
    · simp [execute_tool, List.find?, hn]
    · have hb2 : (t.name == tc.name) = false := beq_eq_false_iff_ne.mpr hn
      simp [execute_tool, List.find?, hb2, hn]
  · simp only [run_calls, hex, bindm_ok]
    rw [String.append_assoc]
    rfl

/-- Witness for C3: resolving `get_weather` takes the first match, and
the unregistered name `calculator` degrades into a result line. -/
theorem C3_resolution_first_match_and_not_found_w :
    execute_tool [get_weather, search_web] ⟨"get_weather", [("location", "Oslo")]⟩ =
      (if get_weather.name = "get_weather" then get_weather.invoke [("location", "Oslo")]
       else execute_tool [search_web] ⟨"get_weather", [("location", "Oslo")]⟩) ∧
    execute_tool tools ⟨"calculator", [("expression", "1+1")]⟩ = .ok "Tool not found" ∧
    run_calls tools [⟨"calculator", [("expression", "1+1")]⟩] =
      .ok ["Tool calculator result: Tool not found"] :=
  C3_resolution_first_match_and_not_found get_weather [search_web] tools
    ⟨"get_weather", [("location", "Oslo")]⟩ ⟨"calculator", [("expression", "1+1")]⟩
    (by
      intro t2 ht2
      have h : t2 = get_weather ∨ t2 = search_web := by
        rw [show tools = [get_weather, search_web] from rfl] at ht2
        simpa using ht2
      rcases h with rfl | rfl <;> decide)

/-- C4: the tool-execution state has no edge back to the model-call
state, and in every run the response field transitions at most twice:
it starts None, a successful run stores a raw model response after the
agent node and, when the tool node runs, ends as a final text string. -/
theorem C4_single_round :
    (∀ state : State, workflow_next "tools" state = some END ∧ END ≠ "agent") ∧
    (∀ (fs : String → Option String) (complete : String → Except String ModelResponse)
        (input : String) (visited : List String) (final : State),
        run_graph fs complete 25 "agent" { input := input, response := none } =
          .ok (visited, final) →
        ((visited = ["agent"] ∧ ∃ r, final.response = some (RespVal.model r)) ∨
         (visited = ["agent", "tools"] ∧ ∃ t, final.response = some (RespVal.str t)))) := by
  refine ⟨fun state => ⟨rfl, by decide⟩, ?_⟩
  intro fs complete input visited final h
  rcases run_graph_25_cases fs complete _ visited final h with
    ⟨s1, ha, _, hv, hf⟩ | ⟨s1, s2, ha, _, ht, hv, hf⟩
  · obtain ⟨r, hs⟩ := agent_node_ok_shape ha
    exact Or.inl ⟨hv, r, by rw [hf, hs]⟩
  · obtain ⟨t, hs⟩ := tool_node_ok_shape ht
    exact Or.inr ⟨hv, t, by rw [hf, hs]⟩

/-- Witness for C4: a no-tool-call run visits only the agent node and
ends with a raw model response. -/
theorem C4_single_round_w :
    ((["agent"] : List String) = ["agent"] ∧
      ∃ r, (State.mk "hi" (some (.model ⟨some "Hello!", []⟩))).response =
        some (RespVal.model r)) ∨
    ((["agent"] : List String) = ["agent", "tools"] ∧
      ∃ t, (State.mk "hi" (some (.model ⟨some "Hello!", []⟩))).response =
        some (RespVal.str t)) :=
  C4_single_round.2 w_fs w_complete_plain "hi" ["agent"]
    (State.mk "hi" (some (.model ⟨some "Hello!", []⟩))) rfl

/-- C5: the request handler returns the final response verbatim on
success, whatever shape it holds, and converts any error raised in the
call chain (including a malformed body) into an error payload whose
message starts with "An error occurred: ". -/
theorem C5_catch_all_handler
    (fs : String → Option String) (complete : String → Except String ModelResponse)
    (body body2 : List (String × String)) (text : String)
    (hbody : body.lookup "text" = some text)
    (hmiss : body2.lookup "text" = none) :
    (query fs complete body =
      match graph_invoke fs complete { input := text, response := none } with
      | .ok s => .response s.response
      | .error e => .error ("An error occurred: " ++ e)) ∧
    (∃ msg, query fs complete body2 = .error ("An error occurred: " ++ msg)) := by
  constructor
  · unfold query
    rw [hbody]
  · refine ⟨"KeyError: text", ?_⟩
    unfold query
    rw [hmiss]

/-- Witness for C5: a well-formed body is answered through the graph and
an empty body is caught and reported. -/
theorem C5_catch_all_handler_w :
    (query w_fs w_complete_plain [("text", "hi")] =
      match graph_invoke w_fs w_complete_plain { input := "hi", response := none } with
      | .ok s => .response s.response
      | .error e => .error ("An error occurred: " ++ e)) ∧
    (∃ msg, query w_fs w_complete_plain ([] : List (String × String)) =
      .error ("An error occurred: " ++ msg)) :=
  C5_catch_all_handler w_fs w_complete_plain [("text", "hi")] [] "hi" rfl rfl

/-- C6: the prompt loader reads the text resource at the fixed prompts
directory addressed by the exact filename `{name}.txt`, strips leading
and trailing whitespace, and fails with a resource-not-found error when
no such resource exists. -/
theorem C6_prompt_loader_addressing
    (fs fs2 : String → Option String) (name name2 contents : String)
    (hsome : fs ("prompts/" ++ name ++ ".txt") = some contents)
    (hnone : fs2 ("prompts/" ++ name2 ++ ".txt") = none) :
    build_prompt fs name = .ok (py_strip contents) ∧
    ∃ e, build_prompt fs2 name2 = .error e := by
  constructor
  · simp [build_prompt, hsome]
  · exact ⟨"FileNotFoundError: " ++ ("prompts/" ++ name2 ++ ".txt"),
      by simp [build_prompt, hnone]⟩

/-- Witness for C6: the padded sample prompt file is read and stripped,
and an empty filesystem makes the loader fail. -/
theorem C6_prompt_loader_addressing_w :
    build_prompt w_fs "system_prompt" = .ok "You are helpful." ∧
    ∃ e, build_prompt (fun _ => none) "system_prompt" = .error e :=
  C6_prompt_loader_addressing w_fs (fun _ => none) "system_prompt" "system_prompt"
    " You are helpful. " rfl rfl

/-- C7: the agent node builds the full prompt as the system prompt text,
the two-character separator of two newlines, then the user input, calls
the model client with exactly that string, and stores the returned
model response in the state's response field. -/
theorem C7_agent_node_prompt_and_response :
    ("\n\n".length = 2) ∧
    ∀ (fs : String → Option String) (complete : String → Except String ModelResponse)
      (s : State) (p : String) (r : ModelResponse),
      build_prompt fs "system_prompt" = .ok p →
      complete (p ++ "\n\n" ++ s.input) = .ok r →
      agent_node fs complete s = .ok { input := s.input, response := some (.model r) } := by
  refine ⟨rfl, ?_⟩
  intro fs complete s p r hb hc
  unfold agent_node
  rw [hb]
  simp only [bindm_ok]
  rw [hc]
  rfl

/-- Witness for C7: the sample system prompt and input produce the model
response stored verbatim. -/
theorem C7_agent_node_prompt_and_response_w :
    agent_node w_fs w_complete_plain { input := "ping", response := none } =
      .ok { input := "ping", response := some (.model ⟨some "Hello!", []⟩) } :=
  C7_agent_node_prompt_and_response.2 w_fs w_complete_plain
    { input := "ping", response := none } "You are helpful." ⟨some "Hello!", []⟩ rfl rfl

/-- C8: for a model response carrying the single tool call
`get_weather(location := "Paris")`, the orchestrator's final response
string equals exactly "Tool get_weather result: Sunny, 72°F in Paris". -/
theorem C8_weather_paris_result :
    graph_invoke (fun _ => some "You are a helpful assistant.")
      (fun _ => .ok { text := none,
                      tool_calls := [{ name := "get_weather",
                                       args := [("location", "Paris")] }] })
      { input := "What is the weather in Paris?", response := none } =
      .ok { input := "What is the weather in Paris?",
            response := some (.str "Tool get_weather result: Sunny, 72°F in Paris") } := rfl

/-- C9: registry discovery is deterministic and order-stable (a fixed
descriptor list, here `get_weather` then `search_web`), it includes every
member of the tool-definitions namespace exposing both a name attribute
and an invoke capability, and members sharing a name are all listed
without deduplication. -/
theorem C9_registry_discovery :
    (get_tools.map Tool.name = ["get_weather", "search_web"] ∧
      get_tools = collect_tools tools_module_members) ∧
    (∀ (ms : List Member) (m : Member) (n : String) (f : Args → Except String String),
        m ∈ ms → m.name = some n → m.invoke = some f →
        Tool.mk n f ∈ collect_tools ms) ∧
    (∀ (ms : List Member) (n : String),
        ((collect_tools ms).filter (fun t => t.name == n)).length =
          ms.countP (member_has n)) := by
  refine ⟨⟨rfl, rfl⟩, ?_, fun ms n => collect_tools_count n ms⟩
  intro ms m n f hm hn hf
  refine List.mem_filterMap.mpr ⟨m, hm, ?_⟩
  rcases m with ⟨mn, mi⟩
  cases hn
  cases hf
  rfl

/-- Witness for C9: a member with both capabilities is listed by the
discovery scan. -/
theorem C9_registry_discovery_w :
    Tool.mk "get_weather" get_weather.invoke ∈ collect_tools [tool_member get_weather] :=
  C9_registry_discovery.2.1 [tool_member get_weather] (tool_member get_weather)
    "get_weather" get_weather.invoke (List.mem_singleton.mpr rfl) rfl rfl

/-- C10: both orchestrator steps leave the state's input field unchanged,
so the original query text is preserved end to end. -/
theorem C10_nodes_preserve_input
    (fs : String → Option String) (complete : String → Except String ModelResponse)
    (ts : List Tool) (s s1 s2 : State)
    (h1 : agent_node fs complete s = .ok s1)
    (h2 : tool_node ts s = .ok s2) :
    s1.input = s.input ∧ s2.input = s.input := by
  obtain ⟨r, hs1⟩ := agent_node_ok_shape h1
  obtain ⟨t, hs2⟩ := tool_node_ok_shape h2
  rw [hs1, hs2]
  exact ⟨rfl, rfl⟩

/-- Witness for C10: both nodes keep the input "hi" of a sample state. -/
theorem C10_nodes_preserve_input_w :
    (State.mk "hi" (some (RespVal.model ⟨some "Hello!", []⟩))).input =
      (State.mk "hi" (some (RespVal.model ⟨none, []⟩))).input ∧
    (State.mk "hi" (some (RespVal.str "No tools executed"))).input =
      (State.mk "hi" (some (RespVal.model ⟨none, []⟩))).input :=
  C10_nodes_preserve_input w_fs w_complete_plain tools
    ⟨"hi", some (.model ⟨none, []⟩)⟩
    ⟨"hi", some (.model ⟨some "Hello!", []⟩)⟩
    ⟨"hi", some (.str "No tools executed")⟩ rfl rfl

end AgentTemplate
